import Mathlib

/-
Verification development for the rust-desktop-suite repository.

The Lean definitions below are a shallow embedding of the Rust sources:
cache.rs, geocode.rs, weather.rs, news.rs, config.rs, auth.rs and the
orchestrator callbacks in main.rs.  Machine integers (i64) are modeled as
Int with explicit saturation at the i64 bounds where the source uses
saturating arithmetic; fallible operations return Option or Except;
network and clock effects are passed in as explicit oracle arguments.
-/

/-- Smallest i64 value, used to model Rust saturating i64 arithmetic. -/
def i64Min : Int := -(2 ^ 63)

/-- Largest i64 value, used to model Rust saturating i64 arithmetic. -/
def i64Max : Int := 2 ^ 63 - 1

/-- Model of Rust i64 saturating_sub: the exact difference clamped to the
i64 range.  Note the clamp is at the i64 bounds, not at zero. -/
def satSubI64 (a b : Int) : Int := max i64Min (min i64Max (a - b))

/-- Embedding of cache.rs is_fresh: now.saturating_sub(ts) <= ttl_secs.
The current clock value is passed explicitly as the first argument. -/
def is_fresh (now ts ttl_secs : Int) : Bool := satSubI64 now ts ≤ ttl_secs

/-- Embedding of cache.rs age_minutes: (now.saturating_sub(ts) / 60).max(0),
with Rust i64 division (truncation toward zero, Int.tdiv). -/
def age_minutes (now ts : Int) : Int := max (Int.tdiv (satSubI64 now ts) 60) 0

/-- Model of the Rust char-level lowercase map used by str.to_lowercase.
Only the ASCII fragment is spelled out; the full Unicode mapping of Rust is
likewise idempotent, which is the only property the proofs rely on. -/
def rustLowerChar (c : Char) : Char :=
  if 65 ≤ c.toNat ∧ c.toNat ≤ 90 then Char.ofNat (c.toNat + 32) else c

/-- Model of Rust str.to_lowercase as a character-wise map. -/
def rust_to_lowercase (s : String) : String := ⟨s.data.map rustLowerChar⟩

/-- Embedding of Rust str.starts_with on the underlying character lists. -/
def rustStartsWith (s pre : String) : Bool := pre.data.isPrefixOf s.data

theorem rustLowerChar_idem (c : Char) :
    rustLowerChar (rustLowerChar c) = rustLowerChar c := by
  unfold rustLowerChar
  by_cases h : 65 ≤ c.toNat ∧ c.toNat ≤ 90
  · rw [if_pos h]
    have h2 : ¬ (65 ≤ (Char.ofNat (c.toNat + 32)).toNat ∧
        (Char.ofNat (c.toNat + 32)).toNat ≤ 90) := by
      obtain ⟨h65, h90⟩ := h
      generalize c.toNat = n at h65 h90 ⊢
      interval_cases n <;> decide
    rw [if_neg h2]
  · rw [if_neg h, if_neg h]

theorem rust_to_lowercase_idem (s : String) :
    rust_to_lowercase (rust_to_lowercase s) = rust_to_lowercase s := by
  unfold rust_to_lowercase
  cases s with
  | mk data =>
      simp [List.map_map, Function.comp_def, rustLowerChar_idem]

theorem isPrefixOf_append_same {α : Type} [BEq α] [LawfulBEq α]
    (a b c : List α) (h : b.isPrefixOf c = true) :
    (a ++ b).isPrefixOf (a ++ c) = true := by
  induction a with
  | nil => simpa using h
  | cons x xs ih => simpa [List.isPrefixOf] using ih

/-- Helper: prefixing the same string on both sides preserves starts_with. -/
theorem rustStartsWith_append (p s pre : String)
    (h : rustStartsWith s pre = true) :
    rustStartsWith (p ++ s) (p ++ pre) = true := by
  unfold rustStartsWith at h ⊢
  rw [String.data_append, String.data_append]
  exact isPrefixOf_append_same p.data pre.data s.data h

-- Cache data model (cache.rs)

/-- Embedding of cache.rs WeatherRow. -/
structure WeatherRow where
  time : String
  temp : String
  summary : String
deriving DecidableEq

/-- Embedding of cache.rs WeatherCache: the on-disk per-user weather record. -/
structure WeatherCache where
  ts : Int
  units : String
  city : String
  rows : List WeatherRow
deriving DecidableEq

/-- Embedding of cache.rs NewsRow. -/
structure NewsRow where
  title : String
  source : String
  published : String
  url : String
deriving DecidableEq

/-- Embedding of cache.rs NewsCache: the on-disk per-user news record.
Note that it stores no topic field and is keyed only by the user. -/
structure NewsCache where
  ts : Int
  rows : List NewsRow
deriving DecidableEq

/-- Embedding of cache.rs save_weather_for: the record it writes, with the
write clock passed explicitly.  The city field is stored lowercased. -/
def save_weather_for (now : Int) (rows : List (String × String × String))
    (units city : String) : WeatherCache :=
  { ts := now
    units := units
    city := rust_to_lowercase city
    rows := rows.map (fun r => ⟨r.1, r.2.1, r.2.2⟩) }

-- Geocode model (geocode.rs)

/-- Embedding of geocode.rs GeocodeError, with error payloads abstracted to
their display strings. -/
inductive GeocodeErr where
  | Http (e : String)
  | Json (e : String)
  | NotFound
deriving DecidableEq

/-- Embedding of geocode.rs ResultItem.  The f64 coordinates are carried
through untouched by the source, so they are modeled as exact integers. -/
structure ResultItem where
  name : String
  latitude : Int
  longitude : Int
  country : String
  admin1 : String
deriving DecidableEq

/-- Embedding of the label composition in geocode.rs fetch_coords.  The
separator in the third branch is the literal three-character sequence
U+00E2 U+20AC U+201D found in the source text (an em dash whose UTF-8
bytes were decoded as Windows-1252), not a single em dash. -/
def geocode_label (name admin1 country : String) : String :=
  if country = "" then name
  else if admin1 = "" then name ++ " (" ++ country ++ ")"
  else name ++ " â€” " ++ admin1 ++ ", " ++ country

/-- Embedding of the response handling of geocode.rs fetch_coords: the
parsed result list (none when the results field is absent) is reduced with
Vec.pop, which removes and returns the LAST element; an empty or absent
list yields NotFound. -/
def fetch_coords_core (results : Option (List ResultItem)) :
    Except GeocodeErr (Int × Int × String) :=
  match results.bind (fun v => v.getLast?) with
  | none => .error .NotFound
  | some item =>
      .ok (item.latitude, item.longitude,
        geocode_label item.name item.admin1 item.country)

-- News model (news.rs)

/-- Model of a slint SharedPixelBuffer: dimensions plus pixel words. -/
structure Buffer where
  width : Nat
  height : Nat
  pixels : List Nat
deriving DecidableEq

/-- Model of SharedPixelBuffer.new(10, 10): a zero-filled 10 by 10 buffer,
the last-resort value in fetch_thumbnail_or_placeholder. -/
def blankBuffer : Buffer := ⟨10, 10, List.replicate 100 0⟩

/-- Embedding of news.rs Hit, the parsed search result. -/
structure Hit where
  title : Option String
  url : Option String
  created_at : Option String
  object_id : Option String
deriving DecidableEq

/-- Embedding of news.rs host_from_url: substring after the first colon
slash slash separator and before the next slash. -/
def host_from_url (url : String) : String :=
  let s := (url.splitOn "://").getD 1 url
  (s.splitOn "/").getD 0 ""

/-- Embedding of news.rs fetch_thumbnail_or_placeholder, with the two
fallible effects passed as oracles: fetched is the outcome of
fetch_thumbnail_buffer for the article (none on any failure: network,
missing metadata, or decode), and placeholder is the outcome of loading
icons/no_image.png. -/
def fetch_thumbnail_or_placeholder (fetched : Option Buffer)
    (placeholder : Option Buffer) : Buffer :=
  match fetched with
  | some buf => buf
  | none =>
      match placeholder with
      | some img => img
      | none => blankBuffer

/-- Row produced by the enrichment closure in news.rs fetch_news. -/
structure NewsNetRow where
  title : String
  source : String
  published : String
  url : String
  thumbnail : Buffer
deriving DecidableEq

/-- Embedding of the per-hit closure in news.rs fetch_news.  pubFormat
models the rfc3339 parse plus local reformat composite (none exactly when
the parse fails); thumbOut models fetch_thumbnail_buffer keyed by the
derived article url; placeholder models the bundled placeholder load. -/
def hit_row (pubFormat : String → Option String)
    (thumbOut : String → Option Buffer) (placeholder : Option Buffer)
    (hit : Hit) : NewsNetRow :=
  let title := hit.title.getD "Untitled"
  let url :=
    match hit.url with
    | some u => u
    | none =>
        match hit.object_id with
        | some id => "https://news.ycombinator.com/item?id=" ++ id
        | none => "https://news.ycombinator.com/"
  let source := host_from_url url
  let published :=
    match hit.created_at with
    | some ts => (pubFormat ts).getD ts
    | none => ""
  ⟨title, source, published, url,
    fetch_thumbnail_or_placeholder (thumbOut url) placeholder⟩

/-- Embedding of news.rs fetch_news after the search response is parsed:
the first count hits are each mapped through the enrichment closure.  The
concurrent unordered completion of the enrichment futures is modeled by
quantifying over permutations of this list in the theorems. -/
def fetch_news_rows (pubFormat : String → Option String)
    (thumbOut : String → Option Buffer) (placeholder : Option Buffer)
    (hits : List Hit) (count : Nat) : List NewsNetRow :=
  (hits.take count).map (hit_row pubFormat thumbOut placeholder)

/-- Embedding of news.rs fetch_news_cached over the process-local
memoization map NEWS_CACHE, modeled as an association list.  The outcome
of the underlying fetch_news call is passed as the net oracle.  The result
triple is the returned value, the cache after the call, and whether the
network fetch was invoked. -/
def fetch_news_cached (cache : List (String × List NewsNetRow))
    (topic : String) (count : Nat)
    (net : Except String (List NewsNetRow)) :
    Except String (List NewsNetRow) × List (String × List NewsNetRow) × Bool :=
  match cache.lookup topic with
  | some cached => (.ok cached, cache, false)
  | none =>
      match net with
      | .ok news => (.ok news, (topic, news) :: cache, true)
      | .error e => (.error e, cache, true)

-- Forecast hour window (weather.rs fetch_next_hours_at, lines 96 to 114)

/-- Model of the Rust single-character split (str.split with a char
pattern) on the underlying character list: always at least one piece,
empty pieces preserved. -/
def splitOnChar (c : Char) : List Char → List (List Char)
  | [] => [[]]
  | x :: xs =>
      let r := splitOnChar c xs
      if x = c then [] :: r
      else
        match r with
        | [] => [[x]]
        | y :: ys => (x :: y) :: ys

/-- Model of a decimal digit-string parse on a character list: some value
exactly for a non-empty all-digit list. -/
def charsToNat? (l : List Char) : Option Nat :=
  if l = [] then none
  else if l.all (fun c => c.isDigit) then
    some (l.foldl (fun acc c => acc * 10 + (c.toNat - 48)) 0)
  else none

/-- Model of the chrono NaiveDateTime parse of the %Y-%m-%dT%H:%M format,
reduced to a totally ordered Nat key.  Field widths and calendar
subtleties are abstracted; the key order agrees with chronological order
on well-formed timestamps, which is all the comparison in the source
observes. -/
def parse_naive (s : String) : Option Nat :=
  match splitOnChar 'T' s.data with
  | [d, t] =>
      match splitOnChar '-' d, splitOnChar ':' t with
      | [y, mo, dd], [h, mi] => do
          let yn ← charsToNat? y
          let mon ← charsToNat? mo
          let dn ← charsToNat? dd
          let hn ← charsToNat? h
          let min2 ← charsToNat? mi
          if 1 ≤ mon ∧ mon ≤ 12 ∧ 1 ≤ dn ∧ dn ≤ 31 ∧ hn ≤ 23 ∧ min2 ≤ 59 then
            some ((((yn * 13 + mon) * 32 + dn) * 24 + hn) * 60 + min2)
          else none
      | _, _ => none
  | _ => none

/-- Embedding of the start-index loop of fetch_next_hours_at: walk the time
strings, skip unparseable entries, and stop at the first parsed timestamp
that is at least now; none when no entry qualifies. -/
def find_start_idx (now : Nat) : List String → Nat → Option Nat
  | [], _ => none
  | t :: ts, i =>
      match parse_naive t with
      | some k => if now ≤ k then some i else find_start_idx now ts (i + 1)
      | none => find_start_idx now ts (i + 1)

/-- Start index actually used: the loop result, or 0 when nothing matched
(the start_idx variable keeps its initial value 0 in the source). -/
def start_idx (times : List String) (now : Nat) : Nat :=
  (find_start_idx now times 0).getD 0

/-- Embedding of the display-time expression for a non-start entry:
t.split at T, second piece, defaulting to 00:00. -/
def hour_label (t : String) : String :=
  match splitOnChar 'T' t.data with
  | _ :: second :: _ => ⟨second⟩
  | _ => "00:00"

/-- Embedding of the output loop of fetch_next_hours_at restricted to the
data the claim observes: for each emitted entry, its source index and its
time label (the literal Now at the start index, the hour portion
otherwise).  The numeric fields are formatted floats in the source and are
not modeled. -/
def fetch_next_hours_window (times : List String) (now : Nat)
    (count : Nat) : List (Nat × String) :=
  let s := start_idx times now
  let e := min (s + count) times.length
  (List.range' s (e - s)).map
    (fun i => (i, if i = s then "Now" else hour_label (times.getD i "")))

-- Orchestrator models (main.rs)

/-- UI item rendered on the weather page (WeatherItem in the slint model). -/
structure WeatherItem where
  time : String
  temp : String
  summary : String
deriving DecidableEq

/-- UI item rendered on the news page (ArticleItem in the slint model). -/
structure ArticleItem where
  title : String
  source : String
  published : String
  url : String
deriving DecidableEq

/-- Weather view portion of the UI state touched by on_refresh_weather. -/
structure WeatherView where
  status : String
  items : List WeatherItem
deriving DecidableEq

/-- News view portion of the UI state touched by on_refresh_news. -/
structure NewsView where
  status : String
  items : List ArticleItem
deriving DecidableEq

/-- Embedding of the cache-hit condition in on_refresh_weather:
is_fresh(c.ts, 15*60) and c.units == want and c.city == city.to_lowercase(). -/
def weather_cache_hit (now : Int) (c : WeatherCache) (city : String)
    (useCelsius : Bool) : Bool :=
  is_fresh now c.ts (15 * 60) &&
    c.units == (if useCelsius then "C" else "F") &&
    c.city == rust_to_lowercase city

/-- Unit glyph used in the weather status strings. -/
def unitGlyph (useCelsius : Bool) : String := if useCelsius then "°C" else "°F"

/-- Embedding of the on_refresh_weather callback of main.rs as a sequential
state transformer over the weather view.  The oracle arguments stand for
the effects: cache is the load_weather_for result, geo is the fetch_coords
outcome (some label on success, none on any error), forecast is the
fetch_next_hours_at outcome with its rows as title, temp, summary triples.
The result carries the final view, whether the forecast stage was invoked,
and the record written through save_weather_for on success.  The ui
closures of the source run on the event loop in submission order, which
the sequential composition mirrors. -/
def refresh_weather_model (now : Int) (cache : Option WeatherCache)
    (city : String) (useCelsius : Bool) (geo : Option String)
    (forecast : Except String (List (String × String × String)))
    (v0 : WeatherView) : WeatherView × Bool × Option WeatherCache :=
  let v1 : WeatherView := { v0 with status := "Loading…" }
  let v2 : WeatherView :=
    match cache with
    | some c =>
        if weather_cache_hit now c city useCelsius then
          { status := "Cached (" ++ unitGlyph useCelsius ++ ") • updated " ++
              toString (age_minutes now c.ts) ++ "m ago"
            items := c.rows.map (fun r => ⟨r.time, r.temp, r.summary⟩) }
        else v1
    | none => v1
  match geo with
  | none => ({ v2 with status := "City not found: " ++ city }, false, none)
  | some label =>
      let v3 : WeatherView := { v2 with status := "Loading… (" ++ label ++ ")" }
      match forecast with
      | .ok rows =>
          let saved := save_weather_for now rows
            (if useCelsius then "C" else "F") city
          ({ status := "Updated (" ++ unitGlyph useCelsius ++ ")"
             items := rows.map (fun r => ⟨r.1, r.2.1, r.2.2⟩) }, true, some saved)
      | .error err =>
          (if rustStartsWith v3.status "Cached" then
            { v3 with status := "Offline • " ++ v3.status }
          else
            { v3 with status := "Failed to load: " ++ err }, true, none)

/-- Embedding of the save_news_for record written on news success. -/
def save_news_for (now : Int) (rows : List NewsNetRow) : NewsCache :=
  { ts := now
    rows := rows.map (fun r => ⟨r.title, r.source, r.published, r.url⟩) }

/-- Embedding of the on_refresh_news callback of main.rs as a sequential
state transformer over the news view.  cache is the load_news_for result;
topic is the requested topic read from the UI; net is the outcome of
news fetch_news for that topic.  The result carries the final view and the
record written through save_news_for on success.  Note the cache-hit check
tests freshness only: the on-disk record stores no topic and the requested
topic takes no part in the decision. -/
def refresh_news_model (now : Int) (cache : Option NewsCache)
    (topic : String) (net : Except String (List NewsNetRow))
    (v0 : NewsView) : NewsView × Option NewsCache :=
  let v1 : NewsView := { v0 with status := "Loading…" }
  let v2 : NewsView :=
    match cache with
    | some c =>
        if is_fresh now c.ts (15 * 60) then
          { status := "Cached • updated " ++ toString (age_minutes now c.ts) ++
              "m ago"
            items := c.rows.map (fun r => ⟨r.title, r.source, r.published, r.url⟩) }
        else v1
    | none => v1
  match net with
  | .ok rows =>
      ({ status := "", items := rows.map (fun r =>
          ⟨r.title, r.source, r.published, r.url⟩) }, some (save_news_for now rows))
  | .error err =>
      (if rustStartsWith v2.status "Cached" then
        { v2 with status := "Offline • " ++ v2.status }
      else
        { v2 with status := "Failed to load: " ++ err }, none)

-- Account deletion model (main.rs on_delete_account, config.rs, auth.rs, cache.rs)

/-- Embedding of the Page enum of the slint model. -/
inductive Page where
  | Weather
  | News
  | Settings
deriving DecidableEq

/-- Embedding of the AppState struct of main.rs. -/
structure AppStateM where
  is_logged_in : Bool
  current_page : Page
  clock_text : String
  current_user : Option String
deriving DecidableEq

/-- Embedding of the auth.rs UserRecord. -/
structure UserRecordM where
  username : String
  pin_phc : String
  created_at : String
deriving DecidableEq

/-- A per-user file subtree, kept abstract as a list of file names.  The
config tree lives under HOME/tock-workshop/slint_rust/users/USER and the
cache tree under the separate relative path cache/users/USER created by
cache.rs user_cache_dir; the two stores are therefore modeled as two
independent maps from user name to optional subtree. -/
abbrev UserTree : Type := Option (List String)

/-- Embedding of auth.rs delete_user as its effect on the users file: the
record with the given username is removed; when no record matched, the
source returns NotFound without writing, which leaves the same list. -/
def auth_delete_user (users : List UserRecordM) (user : String) :
    List UserRecordM :=
  users.filter (fun r => r.username ≠ user)

/-- Embedding of config.rs delete_user_tree: the subtree of the given user
under the config users root is removed; other users are untouched. -/
def delete_user_tree (cfg : String → UserTree) (user : String) :
    String → UserTree :=
  fun u => if u = user then none else cfg u

/-- Embedding of the current_user helper of main.rs: the active user, or
the guest namespace when none is set. -/
def current_user (st : AppStateM) : String := st.current_user.getD "guest"

/-- Embedding of the on_delete_account callback of main.rs: it deletes the
auth record and the config tree, and only when the deleted user is the
active one flips the state to logged out with no current user (the ui
closure also clears the rendered lists, and sets the UI page property
directly without going through the state).  No call into cache.rs is made,
so the cache map passes through unchanged. -/
def on_delete_account (st : AppStateM) (users : List UserRecordM)
    (cfg : String → UserTree) (cache : String → UserTree) (user : String) :
    AppStateM × List UserRecordM × (String → UserTree) × (String → UserTree) :=
  let users2 := auth_delete_user users user
  let cfg2 := delete_user_tree cfg user
  let st2 :=
    if current_user st = user then
      { st with is_logged_in := false, current_user := none }
    else st
  (st2, users2, cfg2, cache)

/-- Decidable equality for Except values, used to evaluate the models at
concrete inputs. -/
instance {ε α : Type} [DecidableEq ε] [DecidableEq α] : DecidableEq (Except ε α)
  | .ok x, .ok y => decidable_of_iff (x = y) (by simp)
  | .ok _, .error _ => isFalse (by simp)
  | .error _, .ok _ => isFalse (by simp)
  | .error e, .error f => decidable_of_iff (e = f) (by simp)

-- Claim theorems

/-- C7 counterexample: the freshness predicate does not saturate the age at
zero, and the unsaturated equivalence fails at the i64 extremes.  At
now = 100, ts = 105 (future), ttl = -3 the code reports fresh although the
zero-saturated age 0 is not at most -3; and at now = 1, ts = i64Min,
ttl = i64Max the code reports fresh although the exact difference exceeds
ttl. -/
theorem c7_is_fresh_counterexample :
    is_fresh 100 105 (-3) = true ∧
    ¬ (max ((100 : Int) - 105) 0 ≤ -3) ∧
    is_fresh 1 i64Min i64Max = true ∧
    ¬ ((1 : Int) - i64Min ≤ i64Max) := by
  refine ⟨by decide, by decide, by decide, by decide⟩

/-- C7 (amended): is_fresh(ts, ttl) is true exactly when the i64-saturating
difference of now and ts (clamped at the i64 bounds, not at zero) is at
most ttl; whenever the exact difference lies in i64 range this is the plain
condition now - ts <= ttl; and a future timestamp gives a negative
difference, hence is fresh for every non-negative ttl. -/
theorem c7_is_fresh_amended (now ts ttl : Int) :
    (is_fresh now ts ttl = true ↔ satSubI64 now ts ≤ ttl) ∧
    (i64Min ≤ now - ts → now - ts ≤ i64Max →
      (is_fresh now ts ttl = true ↔ now - ts ≤ ttl)) ∧
    (now < ts → 0 ≤ ttl → is_fresh now ts ttl = true) := by
  refine ⟨by simp [is_fresh], ?_, ?_⟩
  · intro h1 h2
    have hs : satSubI64 now ts = now - ts := by
      unfold satSubI64
      rw [min_eq_right h2, max_eq_right h1]
    simp [is_fresh, hs]
  · intro hlt httl
    have hneg : now - ts < 0 := by omega
    have hminneg : i64Min < 0 := by decide
    simp only [is_fresh, satSubI64, decide_eq_true_eq]
    apply max_le
    · omega
    · calc min i64Max (now - ts) ≤ now - ts := min_le_right _ _
        _ ≤ ttl := by omega

/-- C7 witness: the amended theorem applied at now = 10, ts = 20, ttl = 0. -/
theorem c7_is_fresh_amended_witness :
    (10 : Int) < 20 ∧ (0 : Int) ≤ 0 ∧ is_fresh 10 20 0 = true :=
  ⟨by decide, by decide, (c7_is_fresh_amended 10 20 0).2.2 (by decide) (by decide)⟩

/-- C8: the first two label shapes agree with the claim, but the third uses
the literal mojibake sequence U+00E2 U+20AC U+201D from the source, not the
single em dash U+2014 the claim specifies, so the Cluj-Napoca example fails. -/
theorem c8_geocode_label_mojibake :
    geocode_label "Paris" "" "France" = "Paris (France)" ∧
    geocode_label "X" "" "" = "X" ∧
    geocode_label "Cluj-Napoca" "Cluj County" "Romania" =
      "Cluj-Napoca â€” Cluj County, Romania" ∧
    geocode_label "Cluj-Napoca" "Cluj County" "Romania" ≠
      "Cluj-Napoca — Cluj County, Romania" := by
  refine ⟨by decide, by decide, by decide, by decide⟩

/-- C10: every record written by save_weather_for stores the city field
lowercased: the stored field equals its own lowercase form (and equals the
lowercase of the requested city), for every clock value, row list, units
value and city argument. -/
theorem c10_save_weather_city_lowercased (now : Int)
    (rows : List (String × String × String)) (units city : String) :
    (save_weather_for now rows units city).city =
      rust_to_lowercase ((save_weather_for now rows units city).city) ∧
    (save_weather_for now rows units city).city = rust_to_lowercase city := by
  constructor
  · show rust_to_lowercase city = rust_to_lowercase (rust_to_lowercase city)
    exact (rust_to_lowercase_idem city).symm
  · rfl

/-- C4 counterexample: on a two-element result set, fetch_coords returns
the data of the LAST element (Vec.pop), not of the first as claimed. -/
theorem c4_fetch_coords_counterexample :
    fetch_coords_core (some [⟨"Alpha", 1, 2, "", ""⟩, ⟨"Beta", 3, 4, "", ""⟩]) =
      .ok (3, 4, "Beta") ∧
    fetch_coords_core (some [⟨"Alpha", 1, 2, "", ""⟩, ⟨"Beta", 3, 4, "", ""⟩]) ≠
      .ok (1, 2, "Alpha") := by
  refine ⟨by decide, by decide⟩

/-- C4 (amended): fetch_coords fails with NotFound exactly when the result
set is absent or empty; otherwise it returns latitude, longitude and label
of the LAST result of the set (the request asks the service for at most one
result, count=1, under which first and last coincide); and a geocode
failure short-circuits the weather refresh so the forecast stage is never
invoked. -/
theorem c4_fetch_coords_amended :
    (∀ results : Option (List ResultItem),
      (fetch_coords_core results = .error .NotFound ↔
        results = none ∨ results = some [])) ∧
    (∀ (v : List ResultItem) (item : ResultItem),
      fetch_coords_core (some (v ++ [item])) =
        .ok (item.latitude, item.longitude,
          geocode_label item.name item.admin1 item.country)) ∧
    (∀ (now : Int) (cache : Option WeatherCache) (city : String)
      (useCelsius : Bool)
      (forecast : Except String (List (String × String × String)))
      (v0 : WeatherView),
      (refresh_weather_model now cache city useCelsius none forecast v0).2.1 =
        false) := by
  refine ⟨?_, ?_, ?_⟩
  · intro results
    match results with
    | none => simp [fetch_coords_core]
    | some [] => simp [fetch_coords_core]
    | some (x :: xs) =>
        obtain ⟨item, hitem⟩ := Option.isSome_iff_exists.mp
          (List.getLast?_isSome.mpr (by simp) : ((x :: xs).getLast?).isSome)
        simp [fetch_coords_core, hitem]
  · intro v item
    simp [fetch_coords_core, List.getLast?_concat]
  · intro now cache city useCelsius forecast v0
    rfl

/-- C4 witness: the amended theorem applied at concrete inputs. -/
theorem c4_fetch_coords_amended_witness :
    fetch_coords_core (some []) = .error .NotFound ∧
    fetch_coords_core (some [⟨"Alpha", 1, 2, "", ""⟩, ⟨"Beta", 3, 4, "", ""⟩]) =
      .ok (3, 4, geocode_label "Beta" "" "") ∧
    (refresh_weather_model 0 none "Cluj" true none (.error "boom")
      ⟨"", []⟩).2.1 = false :=
  ⟨(c4_fetch_coords_amended.1 (some [])).mpr (Or.inr rfl),
   c4_fetch_coords_amended.2.1 [⟨"Alpha", 1, 2, "", ""⟩] ⟨"Beta", 3, 4, "", ""⟩,
   c4_fetch_coords_amended.2.2 0 none "Cluj" true (.error "boom") ⟨"", []⟩⟩

/-- C1 evaluation at the failing input: a weather refresh that rendered a
fresh matching cache record (status Cached ... , rows on screen) and whose
forecast stage then fails ends with status Failed to load: timeout, not
with an Offline Cached status: the geocode-success handler overwrote the
Cached status with Loading and label, so the Offline branch of the failure
handler cannot fire within a single refresh.  The rendered rows are
nevertheless retained.  The news refresh at the analogous input behaves as
the claim states: status Offline Cached and the cached rows intact. -/
theorem c1_offline_fallback_divergence :
    (refresh_weather_model 1060
      (some ⟨1000, "C", "bucharest", [⟨"10:00", "5°C", "Sunny"⟩]⟩)
      "Bucharest" true (some "Bucharest") (.error "timeout")
      ⟨"", []⟩).1.status = "Failed to load: timeout" ∧
    rustStartsWith (refresh_weather_model 1060
      (some ⟨1000, "C", "bucharest", [⟨"10:00", "5°C", "Sunny"⟩]⟩)
      "Bucharest" true (some "Bucharest") (.error "timeout")
      ⟨"", []⟩).1.status "Offline • Cached" = false ∧
    (refresh_weather_model 1060
      (some ⟨1000, "C", "bucharest", [⟨"10:00", "5°C", "Sunny"⟩]⟩)
      "Bucharest" true (some "Bucharest") (.error "timeout")
      ⟨"", []⟩).1.items = [⟨"10:00", "5°C", "Sunny"⟩] ∧
    (refresh_news_model 1060
      (some ⟨1000, [⟨"T1", "example.com", "2024-01-01 10:00", "u1"⟩]⟩)
      "Top Stories" (.error "down")
      ⟨"", []⟩).1.status = "Offline • Cached • updated 1m ago" ∧
    rustStartsWith (refresh_news_model 1060
      (some ⟨1000, [⟨"T1", "example.com", "2024-01-01 10:00", "u1"⟩]⟩)
      "Top Stories" (.error "down")
      ⟨"", []⟩).1.status "Offline • Cached" = true ∧
    (refresh_news_model 1060
      (some ⟨1000, [⟨"T1", "example.com", "2024-01-01 10:00", "u1"⟩]⟩)
      "Top Stories" (.error "down")
      ⟨"", []⟩).1.items =
        [⟨"T1", "example.com", "2024-01-01 10:00", "u1"⟩] := by
  decide

/-- C2 evaluation at the failing input: deleting the active user alice
removes the auth record and the config subtree and logs the Synchronizer
out with no current user, and leaves every file of bob untouched; but the
cache subtree of alice under cache/users/alice survives, because
on_delete_account never calls into cache.rs (delete_user_tree only removes
the config namespace under the HOME based users root). -/
theorem c2_delete_account_cache_left_behind :
    (on_delete_account
      ⟨true, Page.Weather, "12:00:00", some "alice"⟩
      [⟨"alice", "hashA", "2024-01-01"⟩, ⟨"bob", "hashB", "2024-01-02"⟩]
      (fun u => if u = "alice" then some ["config.json"]
                else if u = "bob" then some ["config.json"] else none)
      (fun u => if u = "alice" then some ["weather.json", "news.json"]
                else if u = "bob" then some ["weather.json"] else none)
      "alice").1 = ⟨false, Page.Weather, "12:00:00", none⟩ ∧
    (on_delete_account
      ⟨true, Page.Weather, "12:00:00", some "alice"⟩
      [⟨"alice", "hashA", "2024-01-01"⟩, ⟨"bob", "hashB", "2024-01-02"⟩]
      (fun u => if u = "alice" then some ["config.json"]
                else if u = "bob" then some ["config.json"] else none)
      (fun u => if u = "alice" then some ["weather.json", "news.json"]
                else if u = "bob" then some ["weather.json"] else none)
      "alice").2.1 = [⟨"bob", "hashB", "2024-01-02"⟩] ∧
    (on_delete_account
      ⟨true, Page.Weather, "12:00:00", some "alice"⟩
      [⟨"alice", "hashA", "2024-01-01"⟩, ⟨"bob", "hashB", "2024-01-02"⟩]
      (fun u => if u = "alice" then some ["config.json"]
                else if u = "bob" then some ["config.json"] else none)
      (fun u => if u = "alice" then some ["weather.json", "news.json"]
                else if u = "bob" then some ["weather.json"] else none)
      "alice").2.2.1 "alice" = none ∧
    (on_delete_account
      ⟨true, Page.Weather, "12:00:00", some "alice"⟩
      [⟨"alice", "hashA", "2024-01-01"⟩, ⟨"bob", "hashB", "2024-01-02"⟩]
      (fun u => if u = "alice" then some ["config.json"]
                else if u = "bob" then some ["config.json"] else none)
      (fun u => if u = "alice" then some ["weather.json", "news.json"]
                else if u = "bob" then some ["weather.json"] else none)
      "alice").2.2.1 "bob" = some ["config.json"] ∧
    (on_delete_account
      ⟨true, Page.Weather, "12:00:00", some "alice"⟩
      [⟨"alice", "hashA", "2024-01-01"⟩, ⟨"bob", "hashB", "2024-01-02"⟩]
      (fun u => if u = "alice" then some ["config.json"]
                else if u = "bob" then some ["config.json"] else none)
      (fun u => if u = "alice" then some ["weather.json", "news.json"]
                else if u = "bob" then some ["weather.json"] else none)
      "alice").2.2.2 "bob" = some ["weather.json"] ∧
    (on_delete_account
      ⟨true, Page.Weather, "12:00:00", some "alice"⟩
      [⟨"alice", "hashA", "2024-01-01"⟩, ⟨"bob", "hashB", "2024-01-02"⟩]
      (fun u => if u = "alice" then some ["config.json"]
                else if u = "bob" then some ["config.json"] else none)
      (fun u => if u = "alice" then some ["weather.json", "news.json"]
                else if u = "bob" then some ["weather.json"] else none)
      "alice").2.2.2 "alice" = some ["weather.json", "news.json"] := by
  decide

/-- C3 counterexample for the news half of the claim: rows fetched and
saved during a refresh for topic rust are rendered as a cache hit by a
later refresh requesting topic cats — the on-disk news record stores no
topic and the hit check tests freshness only, so a fresh record whose
originating topic differs from the requested one is still rendered. -/
theorem c3_news_topic_counterexample :
    let r1 := refresh_news_model 1000 none "rust"
      (.ok [⟨"T1", "example.com", "2024-01-01 10:00",
        "https://example.com/a", blankBuffer⟩]) ⟨"", []⟩
    let r2 := refresh_news_model 1060 r1.2 "cats" (.error "net down") ⟨"", []⟩
    r1.2 = some ⟨1000,
      [⟨"T1", "example.com", "2024-01-01 10:00", "https://example.com/a"⟩]⟩ ∧
    r2.1.items =
      [⟨"T1", "example.com", "2024-01-01 10:00", "https://example.com/a"⟩] ∧
    rustStartsWith r2.1.status "Offline • Cached" = true ∧
    ("rust" : String) ≠ "cats" := by
  decide

/-- C3 (amended): a cached weather record is rendered as a cache hit only
if it is fresh and its stored parameters match the request — stored units
equal the requested units and the stored city equals the requested city
case-insensitively — and a record failing the check renders nothing; the
news cache hit check, by contrast, is freshness only: the store records no
topic and the decision is entirely independent of the requested topic. -/
theorem c3_param_match_amended :
    (∀ (now : Int) (c : WeatherCache) (city : String) (useCelsius : Bool),
      weather_cache_hit now c city useCelsius = true →
        c.units = (if useCelsius then "C" else "F") ∧
        rust_to_lowercase c.city = rust_to_lowercase city) ∧
    (∀ (now : Int) (c : WeatherCache) (city : String) (useCelsius : Bool)
      (forecast : Except String (List (String × String × String)))
      (v0 : WeatherView),
      weather_cache_hit now c city useCelsius = false →
        (refresh_weather_model now (some c) city useCelsius none forecast
          v0).1.items = v0.items) ∧
    (∀ (now : Int) (c : NewsCache) (t1 t2 : String)
      (net : Except String (List NewsNetRow)) (v0 : NewsView),
      refresh_news_model now (some c) t1 net v0 =
        refresh_news_model now (some c) t2 net v0) := by
  refine ⟨?_, ?_, ?_⟩
  · intro now c city useCelsius h
    unfold weather_cache_hit at h
    rw [Bool.and_eq_true, Bool.and_eq_true] at h
    obtain ⟨⟨_, hu⟩, hc⟩ := h
    refine ⟨by simpa using hu, ?_⟩
    have hc2 : c.city = rust_to_lowercase city := by simpa using hc
    rw [hc2, rust_to_lowercase_idem]
  · intro now c city useCelsius forecast v0 h
    simp [refresh_weather_model, h]
  · intro now c t1 t2 net v0
    rfl

/-- C3 witness: the amended theorem applied at a concrete matching record
whose stored lowercase city meets an uppercase request. -/
theorem c3_param_match_amended_witness :
    weather_cache_hit 1060 ⟨1000, "C", "bucharest", []⟩ "BUCHAREST" true =
      true ∧
    rust_to_lowercase "bucharest" = rust_to_lowercase "BUCHAREST" :=
  ⟨by decide,
   (c3_param_match_amended.1 1060 ⟨1000, "C", "bucharest", []⟩ "BUCHAREST"
     true (by decide)).2⟩

/-- C9: when the topic is already memoized in the process-local news cache,
fetch_news_cached returns the memoized row sequence unchanged for any
requested count, leaves the cache as is, and does not contact the network;
in particular two calls with the same topic and different counts return
identical sequences and neither touches the network. -/
theorem c9_fetch_news_cached_memoized
    (cache : List (String × List NewsNetRow)) (topic : String)
    (rows : List NewsNetRow) (h : cache.lookup topic = some rows)
    (count1 count2 : Nat) (net1 net2 : Except String (List NewsNetRow)) :
    fetch_news_cached cache topic count1 net1 = (.ok rows, cache, false) ∧
    fetch_news_cached cache topic count2 net2 = (.ok rows, cache, false) := by
  unfold fetch_news_cached
  rw [h]
  exact ⟨rfl, rfl⟩

/-- C9 witness: the theorem applied to a concrete memoized topic with two
different counts and two different network oracle outcomes. -/
theorem c9_fetch_news_cached_memoized_witness :
    ([("rust", ([] : List NewsNetRow))].lookup "rust" = some []) ∧
    fetch_news_cached [("rust", [])] "rust" 5
      (.ok [⟨"t", "s", "p", "u", blankBuffer⟩]) = (.ok [], [("rust", [])], false) ∧
    fetch_news_cached [("rust", [])] "rust" 9 (.error "down") =
      (.ok [], [("rust", [])], false) :=
  ⟨by decide,
   (c9_fetch_news_cached_memoized [("rust", [])] "rust" [] (by decide) 5 9
     (.ok [⟨"t", "s", "p", "u", blankBuffer⟩]) (.error "down")).1,
   (c9_fetch_news_cached_memoized [("rust", [])] "rust" [] (by decide) 5 9
     (.ok [⟨"t", "s", "p", "u", blankBuffer⟩]) (.error "down")).2⟩

/-- Helper: the start-index loop of fetch_next_hours_at is findIdx? over
the predicate parses-and-is-at-least-now, threading the same accumulator. -/
theorem find_start_idx_eq_findIdx (now : Nat) (ts : List String) (i : Nat) :
    find_start_idx now ts i =
      ts.findIdx? (fun t => (parse_naive t).any (fun k => now ≤ k)) i := by
  induction ts generalizing i with
  | nil => rfl
  | cons t ts ih =>
      unfold find_start_idx
      cases hp : parse_naive t with
      | none => simp [List.findIdx?, Option.any, hp, ih]
      | some k =>
          by_cases hk : now ≤ k
          · simp [List.findIdx?, Option.any, hp, hk]
          · simp [List.findIdx?, Option.any, hp, hk, ih]

/-- C5: the forecast window starts at the first index whose timestamp
parses to a time at least now (index 0 when no index qualifies), emits the
next count entries from there (cut off at the end of the series), labels
the first emitted entry with the literal Now and every later entry with
the hour portion of its source timestamp; in particular a 24-entry series
for hours 0 to 23 with now at hour 5 and count 8 yields exactly the
entries for hours 5 to 12. -/
theorem c5_hour_window :
    (∀ (times : List String) (now : Nat),
      start_idx times now =
        (times.findIdx?
          (fun t => (parse_naive t).any (fun k => now ≤ k))).getD 0) ∧
    (∀ (times : List String) (now count : Nat),
      fetch_next_hours_window times now count =
        (List.range' (start_idx times now)
          (min count (times.length - start_idx times now))).map
          (fun i => (i, if i = start_idx times now then "Now"
            else hour_label (times.getD i "")))) ∧
    (fetch_next_hours_window
      ["2024-01-01T00:00", "2024-01-01T01:00", "2024-01-01T02:00",
       "2024-01-01T03:00", "2024-01-01T04:00", "2024-01-01T05:00",
       "2024-01-01T06:00", "2024-01-01T07:00", "2024-01-01T08:00",
       "2024-01-01T09:00", "2024-01-01T10:00", "2024-01-01T11:00",
       "2024-01-01T12:00", "2024-01-01T13:00", "2024-01-01T14:00",
       "2024-01-01T15:00", "2024-01-01T16:00", "2024-01-01T17:00",
       "2024-01-01T18:00", "2024-01-01T19:00", "2024-01-01T20:00",
       "2024-01-01T21:00", "2024-01-01T22:00", "2024-01-01T23:00"]
      ((parse_naive "2024-01-01T05:00").getD 0) 8 =
      [(5, "Now"), (6, "06:00"), (7, "07:00"), (8, "08:00"), (9, "09:00"),
       (10, "10:00"), (11, "11:00"), (12, "12:00")]) := by
  refine ⟨?_, ?_, ?_⟩
  · intro times now
    unfold start_idx
    rw [find_start_idx_eq_findIdx]
  · intro times now count
    have harith : min (start_idx times now + count) times.length -
        start_idx times now =
        min count (times.length - start_idx times now) := by omega
    simp only [fetch_next_hours_window]
    rw [harith]
  · decide

/-- C6: modeling the unordered completion of the concurrent thumbnail
fan-out as an arbitrary permutation of the enriched rows, the output has
exactly one entry per taken search result (same length, same multiset),
and every entry whose thumbnail derivation failed carries the bundled
placeholder buffer, or the minimal blank buffer when the placeholder
itself cannot be loaded; no entry is dropped and no failure escapes. -/
theorem c6_enrichment_totality
    (pubFormat : String → Option String) (thumbOut : String → Option Buffer)
    (placeholder : Option Buffer) (hits : List Hit) (count : Nat)
    (out : List NewsNetRow)
    (hperm : out.Perm
      (fetch_news_rows pubFormat thumbOut placeholder hits count)) :
    out.length = min count hits.length ∧
    (∀ r : NewsNetRow, List.count r out =
      List.count r (fetch_news_rows pubFormat thumbOut placeholder hits count)) ∧
    (∀ r ∈ out, thumbOut r.url = none →
      r.thumbnail = placeholder.getD blankBuffer) := by
  refine ⟨?_, ?_, ?_⟩
  · rw [hperm.length_eq]
    simp [fetch_news_rows]
  · intro r
    exact hperm.count_eq r
  · intro r hr hfail
    have hr2 : r ∈ fetch_news_rows pubFormat thumbOut placeholder hits count :=
      hperm.mem_iff.mp hr
    obtain ⟨hit, _, rfl⟩ := List.mem_map.mp hr2
    have hthumb : (hit_row pubFormat thumbOut placeholder hit).thumbnail =
        fetch_thumbnail_or_placeholder
          (thumbOut (hit_row pubFormat thumbOut placeholder hit).url)
          placeholder := rfl
    rw [hthumb, hfail]
    cases placeholder <;> rfl

/-- C6 witness: the theorem applied to two concrete search results handed
back in reversed completion order, where the thumbnail fetch fails for the
second derived url and the placeholder loads. -/
theorem c6_enrichment_totality_witness :
    let hits : List Hit :=
      [⟨some "A", some "https://a.com/x", none, none⟩,
       ⟨none, none, some "ts", some "123"⟩]
    let thumbOut : String → Option Buffer :=
      fun u => if u = "https://a.com/x" then some ⟨1, 1, [5]⟩ else none
    let rows := fetch_news_rows (fun _ => none) thumbOut (some ⟨2, 2, [7]⟩)
      hits 2
    rows.reverse.length = min 2 hits.length ∧
    (∀ r ∈ rows.reverse, thumbOut r.url = none →
      r.thumbnail = (some (⟨2, 2, [7]⟩ : Buffer)).getD blankBuffer) := by
  have h := c6_enrichment_totality (fun _ => none)
    (fun u => if u = "https://a.com/x" then some ⟨1, 1, [5]⟩ else none)
    (some ⟨2, 2, [7]⟩)
    [⟨some "A", some "https://a.com/x", none, none⟩,
     ⟨none, none, some "ts", some "123"⟩]
    2
    (fetch_news_rows (fun _ => none)
      (fun u => if u = "https://a.com/x" then some ⟨1, 1, [5]⟩ else none)
      (some ⟨2, 2, [7]⟩)
      [⟨some "A", some "https://a.com/x", none, none⟩,
       ⟨none, none, some "ts", some "123"⟩] 2).reverse
    (List.reverse_perm _)
  exact ⟨h.1, h.2.2⟩
